import Mathlib

/-!
Verification of `rest_auth_provider.py`, a Matrix Synapse password provider
that delegates credential checks to an external REST endpoint.

The development shallowly embeds the module:

* Python values that the module manipulates dynamically (config entries,
  parsed JSON bodies) become the inductive `PyVal`; Python truthiness
  becomes `PyVal.truthy`.
* Strings that the code inspects character by character (user ids,
  localparts) are modelled as `List Char`.
* `check_password` becomes a pure function from the provider state, an
  environment describing the behaviour of the external collaborators
  (the HTTP verifier and Synapse's account handler), the user id and the
  password, to an `Except String Bool` result paired with a trace of the
  observable effects (log lines, the outbound HTTP POST, the
  `check_user_exists` query and the `register` call).  `Except.error`
  models a Python exception escaping `check_password`; `Except.ok` models
  a normal `return`.
* `parse_config` and `__init__` become functions returning
  `Except String _`, where `Except.error` models the raised exception.

Caveat recorded once here: Python's `str.lower` performs full Unicode case
mapping; the embedding's `lowerChars` applies Lean's `Char.toLower`, which
lowercases the ASCII range.  All claims under study concern ASCII
localparts, where the two agree.
-/

/-- A dynamic Python value, as produced by YAML config loading or by
`response.json()`: `None`, booleans, numbers (modelled as integers),
strings, lists and string-keyed dicts. -/
inductive PyVal where
  | none
  | bool (b : Bool)
  | int (n : Int)
  | str (s : String)
  | list (xs : List PyVal)
  | dict (kvs : List (String × PyVal))

/-- Python truthiness (`bool(v)`): `None`, `False`, `0`, `''` and empty
containers are falsy, everything else truthy. -/
def PyVal.truthy : PyVal → Bool
  | .none => false
  | .bool b => b
  | .int n => n != 0
  | .str s => s != ""
  | .list xs => !xs.isEmpty
  | .dict kvs => !kvs.isEmpty

/-- First-match lookup in a string-keyed association list, the model of a
Python dict subscript `d[k]` (dict keys are unique, so first match is the
match). -/
def dlookup : List (String × PyVal) → String → Option PyVal
  | [], _ => Option.none
  | (k', v) :: rest, k => if k' = k then some v else dlookup rest k

/-- Membership test `k in d` on a Python dict. -/
def hasKey : List (String × PyVal) → String → Bool
  | [], _ => false
  | (k', _) :: rest, k => (k' = k) || hasKey rest k

/-- Model of `s.split(':', 1)[0]`: the prefix of the string up to (and
excluding) the first `:`, or the whole string when no `:` occurs. -/
def splitFirstColon (cs : List Char) : List Char :=
  cs.takeWhile (fun c => c != ':')

/-- Model of `user_id.startswith('@')`. -/
def startsWithAt : List Char → Bool
  | [] => false
  | c :: _ => c == '@'

/-- The localpart derivation at the top of `check_password`
(`rest_auth_provider.py`, lines 51-54): strip a leading `@` when present,
then split at the first `:` and keep the prefix. -/
def extractLocalpart (user_id : List Char) : List Char :=
  if startsWithAt user_id then splitFirstColon (user_id.drop 1)
  else splitFirstColon user_id

/-- Model of `localpart.lower()` (see the ASCII caveat in the header). -/
def lowerChars (cs : List Char) : List Char :=
  cs.map Char.toLower

lemma splitFirstColon_of_not_mem {l : List Char} (h : ':' ∉ l) :
    splitFirstColon l = l := by
  induction l with
  | nil => rfl
  | cons c cs ih =>
    have hc : c ≠ ':' := fun hc => h (hc ▸ List.mem_cons_self c cs)
    have hcs : ':' ∉ cs := fun hm => h (List.mem_cons_of_mem _ hm)
    simp [splitFirstColon, List.takeWhile_cons, hc]
    simpa [splitFirstColon] using ih hcs

lemma splitFirstColon_append {l r : List Char} (h : ':' ∉ l) :
    splitFirstColon (l ++ ':' :: r) = l := by
  induction l with
  | nil => simp [splitFirstColon, List.takeWhile_cons]
  | cons c cs ih =>
    have hc : c ≠ ':' := fun hc => h (hc ▸ List.mem_cons_self c cs)
    have hcs : ':' ∉ cs := fun hm => h (List.mem_cons_of_mem _ hm)
    simp [splitFirstColon, List.takeWhile_cons, hc] at ih ⊢
    exact ih hcs

lemma extractLocalpart_at_cons (rest : List Char) :
    extractLocalpart ('@' :: rest) = splitFirstColon rest := by
  simp [extractLocalpart, startsWithAt]

lemma extractLocalpart_not_at {c : Char} {rest : List Char} (h : c ≠ '@') :
    extractLocalpart (c :: rest) = splitFirstColon (c :: rest) := by
  simp [extractLocalpart, startsWithAt, h]

/-- C1: for identifiers of the forms `@name:domain`, `@name` and
`name:domain` — where `name` contains no `:` and, for the sigil-free form,
does not itself start with `@` — the localpart derivation of
`check_password` yields exactly `name`.  The derivation is a pure Lean
function, hence deterministic and side-effect free. -/
theorem c1_localpart_extraction (name domain : List Char)
    (hcolon : ':' ∉ name) (hat : ∀ rest, name ≠ '@' :: rest) :
    extractLocalpart ('@' :: (name ++ ':' :: domain)) = name ∧
    extractLocalpart ('@' :: name) = name ∧
    extractLocalpart (name ++ ':' :: domain) = name := by
  refine ⟨?_, ?_, ?_⟩
  · rw [extractLocalpart_at_cons, splitFirstColon_append hcolon]
  · rw [extractLocalpart_at_cons, splitFirstColon_of_not_mem hcolon]
  · cases name with
    | nil =>
      simp only [List.nil_append]
      rw [extractLocalpart_not_at (by decide : ':' ≠ '@')]
      simpa using splitFirstColon_append (l := []) (by simp)
    | cons c cs =>
      have hc : c ≠ '@' := by
        intro hc; exact hat cs (by rw [hc])
      rw [List.cons_append, extractLocalpart_not_at hc,
        ← List.cons_append, splitFirstColon_append hcolon]

/-- Witness for C1 at `name = "alice"`, `domain = "example.org"`. -/
theorem c1_localpart_extraction_witness :
    extractLocalpart ('@' :: (['a','l','i','c','e'] ++ ':' :: ['e','x'])) =
      ['a','l','i','c','e'] ∧
    extractLocalpart ('@' :: ['a','l','i','c','e']) = ['a','l','i','c','e'] ∧
    extractLocalpart (['a','l','i','c','e'] ++ ':' :: ['e','x']) =
      ['a','l','i','c','e'] :=
  c1_localpart_extraction ['a','l','i','c','e'] ['e','x'] (by decide)
    (by intro rest h; cases h)

/-- Severity of a log statement in `check_password`. -/
inductive LogLevel where
  | info
  | debug
  | error

/-- The log statements of `check_password`, one constructor per
`logger.*` call site, carrying exactly the values interpolated into the
format string at that site (the password is interpolated nowhere). -/
inductive LogMsg where
  | gotPasswordCheck (user_id : List Char)
  | extractedLocalpart (localpart : List Char)
  | httpRequestFailed (errText : String)
  | invalidJsonResponse
  | responseDebug (result : PyVal)
  | authSuccessful (user_id : List Char)
  | authFailed (user_id : List Char)
  | userCreating (user_id : List Char)
  | lowercasePolicy (localpart : List Char)
  | registrationSuccessful (user_id : List Char)
  | userAlreadyExists (user_id : List Char)

/-- Observable effects of one `check_password` invocation, in program
order: log lines, the outbound `requests.post` (with its form payload),
the `account_handler.check_user_exists` query and the
`account_handler.register` call. -/
inductive Event where
  | log (lvl : LogLevel) (msg : LogMsg)
  | httpPost (endpoint api_token : PyVal) (username : List Char)
      (password : String)
  | checkUserExists (user_id : List Char)
  | register (localpart : List Char)

/-- Outcome of the `try` block around `requests.post` +
`response.raise_for_status()` + `response.json()`:
`exn e` models a `requests.exceptions.RequestException` (transport
failure, or `raise_for_status` on a non-2xx status) with message `e`;
`ok Option.none` models a 2xx response whose body fails to parse
(`response.json()` raises `ValueError`); `ok (some body)` a 2xx response
with parsed JSON value `body`. -/
inductive PostResult where
  | exn (e : String)
  | ok (body : Option PyVal)

/-- Behaviour of the external collaborators during one invocation: the
HTTP verifier's answer, the account handler's existence answer, and the
pair returned by `register` (the access token is discarded by the
code). -/
structure AuthEnv where
  postResult : PostResult
  userExists : Bool
  regUserId : List Char
  regToken : String

/-- The provider state set up by `__init__`: `self.endpoint`,
`self.api_token` and `self.regLower`, copied from the parsed config. -/
structure Provider where
  endpoint : PyVal
  api_token : PyVal
  regLower : PyVal

/-- Model of `result.get('success')`: on a dict, an `Option`-valued
lookup (`None` when the key is absent); on any other Python value the
attribute access raises `AttributeError` (no `get` attribute), which
`check_password` does not catch. -/
def PyVal.dictGet : PyVal → String → Except String (Option PyVal)
  | .dict kvs, k => Except.ok (dlookup kvs k)
  | _, _ => Except.error "AttributeError"

/-- Truthiness of `result.get('success')`: a missing key gives `None`,
which is falsy. -/
def truthyOpt : Option PyVal → Bool
  | Option.none => false
  | some v => v.truthy

/-- The effects every invocation of `check_password` performs before the
HTTP outcome is examined: the two opening log lines and the POST itself
(lines 48-67 of the source). -/
def preTrace (P : Provider) (user_id : List Char) (password : String) :
    List Event :=
  [Event.log .info (.gotPasswordCheck user_id),
   Event.log .info (.extractedLocalpart (extractLocalpart user_id)),
   Event.httpPost P.endpoint P.api_token (extractLocalpart user_id) password]

/-- Shallow embedding of `RestAuthProvider.check_password`
(`rest_auth_provider.py`, lines 47-104).  Returns the Python-level
outcome (`Except.ok b` for `return b`, `Except.error e` for an uncaught
exception) together with the trace of observable effects. -/
def checkPassword (P : Provider) (env : AuthEnv) (user_id : List Char)
    (password : String) : Except String Bool × List Event :=
  let localpart := extractLocalpart user_id
  match env.postResult with
  | .exn e =>
      (Except.ok false,
       preTrace P user_id password ++ [Event.log .error (.httpRequestFailed e)])
  | .ok Option.none =>
      (Except.ok false,
       preTrace P user_id password ++ [Event.log .error .invalidJsonResponse])
  | .ok (some result) =>
      match result.dictGet "success" with
      | .error e =>
          (Except.error e,
           preTrace P user_id password ++ [Event.log .debug (.responseDebug result)])
      | .ok v =>
          if truthyOpt v then
            if env.userExists then
              (Except.ok true,
               preTrace P user_id password ++
                 [Event.log .debug (.responseDebug result),
                  Event.log .info (.authSuccessful user_id),
                  Event.checkUserExists user_id,
                  Event.log .info (.userAlreadyExists user_id)])
            else
              if (localpart != lowerChars localpart) && P.regLower.truthy then
                (Except.ok false,
                 preTrace P user_id password ++
                   [Event.log .debug (.responseDebug result),
                    Event.log .info (.authSuccessful user_id),
                    Event.checkUserExists user_id,
                    Event.log .info (.userCreating user_id),
                    Event.log .info (.lowercasePolicy localpart)])
              else
                (Except.ok true,
                 preTrace P user_id password ++
                   [Event.log .debug (.responseDebug result),
                    Event.log .info (.authSuccessful user_id),
                    Event.checkUserExists user_id,
                    Event.log .info (.userCreating user_id),
                    Event.register localpart,
                    Event.log .info (.registrationSuccessful env.regUserId)])
          else
            (Except.ok false,
             preTrace P user_id password ++
               [Event.log .debug (.responseDebug result),
                Event.log .info (.authFailed user_id)])

/-- Selector for registration events in a trace. -/
def isRegister : Event → Bool
  | .register _ => true
  | _ => false

/-- Selector for outbound HTTP POST events in a trace. -/
def isHttpPost : Event → Bool
  | .httpPost _ _ _ _ => true
  | _ => false

/-- Projection of an event to its log content, when it is a log line. -/
def logEntry : Event → Option (LogLevel × LogMsg)
  | .log lvl msg => some (lvl, msg)
  | _ => Option.none

/-- The sequence of log lines of a trace, in order. -/
def logsOf (tr : List Event) : List (LogLevel × LogMsg) :=
  tr.filterMap logEntry

/-- A concrete provider used by the witnesses below. -/
def sampleProvider : Provider :=
  ⟨PyVal.str "http://localhost/auth", PyVal.str "token", PyVal.bool true⟩

/-- Environment for witnesses: the POST raises a `RequestException`. -/
def transportFailEnv : AuthEnv :=
  ⟨PostResult.exn "connection refused", false, [], ""⟩

/-- Environment for witnesses: 2xx response, body is not valid JSON. -/
def badJsonEnv : AuthEnv :=
  ⟨PostResult.ok Option.none, false, [], ""⟩

/-- Environment for witnesses: 2xx, body `[]` (valid JSON, not an object). -/
def nonObjectEnv : AuthEnv :=
  ⟨PostResult.ok (some (PyVal.list [])), false, [], ""⟩

/-- Environment for witnesses: 2xx, body is the object with `success: false`. -/
def falsySuccessEnv : AuthEnv :=
  ⟨PostResult.ok (some (PyVal.dict [("success", PyVal.bool false)])), false, [], ""⟩

/-- Environment for witnesses: 2xx, `success: true`, user already exists. -/
def existingUserEnv : AuthEnv :=
  ⟨PostResult.ok (some (PyVal.dict [("success", PyVal.bool true)])), true, [], ""⟩

/-- Environment for witnesses: 2xx, `success: true`, user does not exist;
`register` returns the fresh id `@x:d`. -/
def newUserSuccessEnv : AuthEnv :=
  ⟨PostResult.ok (some (PyVal.dict [("success", PyVal.bool true)])), false,
   ['@','x',':','d'], "tok"⟩

/-- C2: whenever the `try` block around the POST raises (transport failure
or non-2xx status via `raise_for_status`), or the 2xx body fails to parse
as JSON, `check_password` returns `False` normally (no exception escapes)
and performs no registration call. -/
theorem c2_http_failure_fail_closed (P : Provider) (env : AuthEnv)
    (user_id : List Char) (password : String)
    (h : (∃ e, env.postResult = PostResult.exn e) ∨
         env.postResult = PostResult.ok Option.none) :
    (checkPassword P env user_id password).1 = Except.ok false ∧
    List.filter isRegister (checkPassword P env user_id password).2 = [] := by
  rcases h with ⟨e, he⟩ | he <;>
    simp [checkPassword, he, preTrace, isRegister]

/-- Witness for C2: a transport failure and an unparsable body, both at a
concrete input. -/
theorem c2_http_failure_fail_closed_witness :
    ((checkPassword sampleProvider transportFailEnv ['@','a'] "pw").1 =
        Except.ok false ∧
      List.filter isRegister
        (checkPassword sampleProvider transportFailEnv ['@','a'] "pw").2 = []) ∧
    ((checkPassword sampleProvider badJsonEnv ['@','a'] "pw").1 =
        Except.ok false ∧
      List.filter isRegister
        (checkPassword sampleProvider badJsonEnv ['@','a'] "pw").2 = []) :=
  ⟨c2_http_failure_fail_closed sampleProvider transportFailEnv ['@','a'] "pw"
      (Or.inl ⟨"connection refused", rfl⟩),
   c2_http_failure_fail_closed sampleProvider badJsonEnv ['@','a'] "pw"
      (Or.inr rfl)⟩

/-- C3 (amended): for every parsed JSON **object** response whose
`success` entry is falsy or missing, `check_password` returns `False` and
issues no registration call.  (A parsed body that is not a JSON object
instead makes `result.get` raise `AttributeError`; see the
counterexample.) -/
theorem c3_falsy_success_returns_false (P : Provider) (env : AuthEnv)
    (user_id : List Char) (password : String) (kvs : List (String × PyVal))
    (hpost : env.postResult = PostResult.ok (some (PyVal.dict kvs)))
    (hfalsy : truthyOpt (dlookup kvs "success") = false) :
    (checkPassword P env user_id password).1 = Except.ok false ∧
    List.filter isRegister (checkPassword P env user_id password).2 = [] := by
  simp [checkPassword, hpost, PyVal.dictGet, hfalsy, preTrace, isRegister]

/-- Witness for C3 (amended): a 200 response with body `success: false`
yields `False` and no registration call. -/
theorem c3_falsy_success_returns_false_witness :
    (checkPassword sampleProvider falsySuccessEnv ['@','a'] "pw").1 =
      Except.ok false ∧
    List.filter isRegister
      (checkPassword sampleProvider falsySuccessEnv ['@','a'] "pw").2 = [] :=
  c3_falsy_success_returns_false sampleProvider falsySuccessEnv ['@','a'] "pw"
    [("success", PyVal.bool false)] rfl rfl

/-- Counterexample to C3 as stated: the body `[]` parses as JSON and has
no `success` field, yet `check_password` does not return `False` — the
attribute access `result.get` raises `AttributeError`, which propagates
to the caller. -/
theorem c3_counterexample :
    (checkPassword sampleProvider nonObjectEnv ['@','a'] "pw").1 =
      Except.error "AttributeError" ∧
    (checkPassword sampleProvider nonObjectEnv ['@','a'] "pw").1 ≠
      Except.ok false := by
  refine ⟨rfl, fun h => ?_⟩
  rw [show (checkPassword sampleProvider nonObjectEnv ['@','a'] "pw").1 =
        Except.error "AttributeError" from rfl] at h
  exact Except.noConfusion h

/-- C4: (1) on verifier success for an already existing user,
`check_password` returns `True` and issues no registration call;
(2) every invocation performs exactly one outbound HTTP POST and at most
one registration call. -/
theorem c4_existing_user_and_call_counts :
    (∀ (P : Provider) (env : AuthEnv) (user_id : List Char)
        (password : String) (result : PyVal) (v : Option PyVal),
        env.postResult = PostResult.ok (some result) →
        result.dictGet "success" = Except.ok v →
        truthyOpt v = true →
        env.userExists = true →
        (checkPassword P env user_id password).1 = Except.ok true ∧
        List.filter isRegister (checkPassword P env user_id password).2 = []) ∧
    (∀ (P : Provider) (env : AuthEnv) (user_id : List Char)
        (password : String),
        (List.filter isHttpPost (checkPassword P env user_id password).2).length
          = 1 ∧
        (List.filter isRegister (checkPassword P env user_id password).2).length
          ≤ 1) := by
  constructor
  · intro P env user_id password result v hpost hget htv hex
    simp [checkPassword, hpost, hget, htv, hex, preTrace, isRegister]
  · intro P env user_id password
    rcases env with ⟨pr, ue, ru, rt⟩
    cases pr with
    | exn e => simp [checkPassword, preTrace, isRegister, isHttpPost]
    | ok body =>
      cases body with
      | none => simp [checkPassword, preTrace, isRegister, isHttpPost]
      | some result =>
        cases hg : result.dictGet "success" with
        | error e =>
          simp [checkPassword, hg, preTrace, isRegister, isHttpPost]
        | ok v =>
          cases htv : truthyOpt v with
          | false =>
            simp [checkPassword, hg, htv, preTrace, isRegister, isHttpPost]
          | true =>
            cases ue with
            | true =>
              simp [checkPassword, hg, htv, preTrace, isRegister, isHttpPost]
            | false =>
              cases hlc : ((extractLocalpart user_id !=
                  lowerChars (extractLocalpart user_id)) &&
                  PyVal.truthy P.regLower) with
              | false =>
                simp [checkPassword, hg, htv, hlc, preTrace, isRegister,
                  isHttpPost]
              | true =>
                simp [checkPassword, hg, htv, hlc, preTrace, isRegister,
                  isHttpPost]

/-- Witness for C4 at a concrete input: verifier success, user exists. -/
theorem c4_existing_user_and_call_counts_witness :
    ((checkPassword sampleProvider existingUserEnv ['@','a'] "pw").1 =
        Except.ok true ∧
      List.filter isRegister
        (checkPassword sampleProvider existingUserEnv ['@','a'] "pw").2 = []) ∧
    (List.filter isHttpPost
        (checkPassword sampleProvider existingUserEnv ['@','a'] "pw").2).length
      = 1 ∧
    (List.filter isRegister
        (checkPassword sampleProvider existingUserEnv ['@','a'] "pw").2).length
      ≤ 1 :=
  ⟨c4_existing_user_and_call_counts.1 sampleProvider existingUserEnv
      ['@','a'] "pw" (PyVal.dict [("success", PyVal.bool true)])
      (some (PyVal.bool true)) rfl rfl rfl rfl,
   c4_existing_user_and_call_counts.2 sampleProvider existingUserEnv
      ['@','a'] "pw"⟩

/-- C5: verifier success for a not-yet-existing user whose localpart is
not equal to its own lowercasing, with the lowercase policy enabled
(truthy `regLower`), yields `False` and no registration call. -/
theorem c5_lowercase_policy_rejects (P : Provider) (env : AuthEnv)
    (user_id : List Char) (password : String) (result : PyVal)
    (v : Option PyVal)
    (hpost : env.postResult = PostResult.ok (some result))
    (hget : result.dictGet "success" = Except.ok v)
    (htv : truthyOpt v = true)
    (hex : env.userExists = false)
    (hreg : PyVal.truthy P.regLower = true)
    (hlow : extractLocalpart user_id ≠ lowerChars (extractLocalpart user_id)) :
    (checkPassword P env user_id password).1 = Except.ok false ∧
    List.filter isRegister (checkPassword P env user_id password).2 = [] := by
  simp [checkPassword, hpost, hget, htv, hex, hreg, hlow, preTrace, isRegister]

/-- Witness for C5 at localpart `A` (uppercase) with the policy on. -/
theorem c5_lowercase_policy_rejects_witness :
    (checkPassword sampleProvider newUserSuccessEnv ['@','A'] "pw").1 =
      Except.ok false ∧
    List.filter isRegister
      (checkPassword sampleProvider newUserSuccessEnv ['@','A'] "pw").2 = [] :=
  c5_lowercase_policy_rejects sampleProvider newUserSuccessEnv ['@','A'] "pw"
    (PyVal.dict [("success", PyVal.bool true)]) (some (PyVal.bool true))
    rfl rfl rfl rfl rfl (by decide)

/-- C6: verifier success for a not-yet-existing user whose localpart
equals its own lowercasing leads — for every value of the `regLower`
policy — to exactly one `register` call carrying that localpart, and the
result `True`. -/
theorem c6_lowercase_localpart_registers (P : Provider) (env : AuthEnv)
    (user_id : List Char) (password : String) (result : PyVal)
    (v : Option PyVal)
    (hpost : env.postResult = PostResult.ok (some result))
    (hget : result.dictGet "success" = Except.ok v)
    (htv : truthyOpt v = true)
    (hex : env.userExists = false)
    (hlow : lowerChars (extractLocalpart user_id) = extractLocalpart user_id) :
    (checkPassword P env user_id password).1 = Except.ok true ∧
    List.filter isRegister (checkPassword P env user_id password).2 =
      [Event.register (extractLocalpart user_id)] := by
  simp [checkPassword, hpost, hget, htv, hex, hlow, preTrace, isRegister]

/-- Witness for C6 at localpart `a`, policy on in `sampleProvider`. -/
theorem c6_lowercase_localpart_registers_witness :
    (checkPassword sampleProvider newUserSuccessEnv ['@','a'] "pw").1 =
      Except.ok true ∧
    List.filter isRegister
      (checkPassword sampleProvider newUserSuccessEnv ['@','a'] "pw").2 =
      [Event.register ['a']] :=
  c6_lowercase_localpart_registers sampleProvider newUserSuccessEnv
    ['@','a'] "pw" (PyVal.dict [("success", PyVal.bool true)])
    (some (PyVal.bool true)) rfl rfl rfl rfl rfl

/-- C9: the sequence of log lines emitted by `check_password` is the same
for any two invocations that differ only in the password (external
verifier response and host replies held fixed); in particular the
password value reaches no log line. -/
theorem c9_logs_independent_of_password (P : Provider) (env : AuthEnv)
    (user_id : List Char) (pw1 pw2 : String) :
    logsOf (checkPassword P env user_id pw1).2 =
      logsOf (checkPassword P env user_id pw2).2 := by
  rcases env with ⟨pr, ue, ru, rt⟩
  cases pr with
  | exn e => simp [checkPassword, logsOf, preTrace, logEntry]
  | ok body =>
    cases body with
    | none => simp [checkPassword, logsOf, preTrace, logEntry]
    | some result =>
      cases hg : result.dictGet "success" with
      | error e => simp [checkPassword, hg, logsOf, preTrace, logEntry]
      | ok v =>
        cases htv : truthyOpt v with
        | false => simp [checkPassword, hg, htv, logsOf, preTrace, logEntry]
        | true =>
          cases ue with
          | true => simp [checkPassword, hg, htv, logsOf, preTrace, logEntry]
          | false =>
            cases hlc : ((extractLocalpart user_id !=
                lowerChars (extractLocalpart user_id)) &&
                PyVal.truthy P.regLower) with
            | false =>
              simp [checkPassword, hg, htv, hlc, logsOf, preTrace, logEntry]
            | true =>
              simp [checkPassword, hg, htv, hlc, logsOf, preTrace, logEntry]

/-- C10: identifiers whose first character after the optional `@` sigil
is `:` (`@:domain`, `:domain`, bare `@`) derive the empty localpart; the
empty localpart passes the lowercase check, so on verifier success for a
not-yet-existing user, `register` is called with the empty localpart and
the result is `True`. -/
theorem c10_empty_localpart_registers :
    (∀ rest : List Char,
        extractLocalpart ('@' :: ':' :: rest) = [] ∧
        extractLocalpart (':' :: rest) = []) ∧
    extractLocalpart ['@'] = [] ∧
    (∀ (P : Provider) (env : AuthEnv) (user_id : List Char)
        (password : String) (result : PyVal) (v : Option PyVal),
        extractLocalpart user_id = [] →
        env.postResult = PostResult.ok (some result) →
        result.dictGet "success" = Except.ok v →
        truthyOpt v = true →
        env.userExists = false →
        (checkPassword P env user_id password).1 = Except.ok true ∧
        List.filter isRegister (checkPassword P env user_id password).2 =
          [Event.register []]) := by
  refine ⟨?_, rfl, ?_⟩
  · intro rest
    constructor
    · rw [extractLocalpart_at_cons]
      simp [splitFirstColon, List.takeWhile_cons]
    · rw [extractLocalpart_not_at (by decide : ':' ≠ '@')]
      simp [splitFirstColon, List.takeWhile_cons]
  · intro P env user_id password result v hloc hpost hget htv hex
    simp [checkPassword, hpost, hget, htv, hex, hloc, lowerChars, preTrace,
      isRegister]

/-- Witness for C10 at the identifier `@:d`: empty localpart, `register`
called with it, result `True`. -/
theorem c10_empty_localpart_registers_witness :
    extractLocalpart ['@',':','d'] = [] ∧
    (checkPassword sampleProvider newUserSuccessEnv ['@',':','d'] "pw").1 =
      Except.ok true ∧
    List.filter isRegister
      (checkPassword sampleProvider newUserSuccessEnv ['@',':','d'] "pw").2 =
      [Event.register []] :=
  ⟨(c10_empty_localpart_registers.1 ['d']).1,
   c10_empty_localpart_registers.2.2 sampleProvider newUserSuccessEnv
     ['@',':','d'] "pw" (PyVal.dict [("success", PyVal.bool true)])
     (some (PyVal.bool true)) rfl rfl rfl rfl rfl⟩

/-- Model of a Python subscript `v[k]` with a string key, as used by the
chained policy lookups in `parse_config`.  `Option.none` stands for the
raised exception: `KeyError` when `v` is a dict without the key,
`TypeError` when `v` is not subscriptable by a string — exactly the two
exception types every `try` block in `parse_config` catches and
ignores. -/
def pyGet : PyVal → String → Option PyVal
  | .dict kvs, k => dlookup kvs k
  | _, _ => Option.none

/-- Chained subscripts `v[k1][k2]...`, stopping at the first raised
`KeyError`/`TypeError`. -/
def chainGet : PyVal → List String → Option PyVal
  | v, [] => some v
  | v, k :: ks =>
      match pyGet v k with
      | Option.none => Option.none
      | some w => chainGet w ks

/-- One nested policy lookup of `parse_config`:
`config['policy'][k1][k2][k3]` with `TypeError` and `KeyError` swallowed
(`Option.none`). -/
def policyLookup (config : List (String × PyVal)) (path : List String) :
    Option PyVal :=
  match dlookup config "policy" with
  | Option.none => Option.none
  | some v => chainGet v path

/-- The `_RestConfig` object built by `parse_config`: the two required
entries plus the five policy flags.  In the source the flags are plain
attributes that can hold whatever Python value the config supplied, so
they are modelled as `PyVal`. -/
structure RestConfig where
  endpoint : PyVal
  api_token : PyVal
  regLower : PyVal
  setNameOnRegister : PyVal
  setNameOnLogin : PyVal
  updateThreepid : PyVal
  replaceThreepid : PyVal

/-- The message of the exception raised by `_require_keys`
(`"REST Auth enabled but missing required config values: " +
", ".join(missing)`). -/
def requireKeysMessage (missing : List String) : String :=
  "REST Auth enabled but missing required config values: " ++
    String.intercalate ", " missing

/-- Shallow embedding of `_require_keys` (lines 173-180): collect the
required keys absent from the config dict and raise when any are
missing. -/
def require_keys (config : List (String × PyVal)) (required : List String) :
    Except String Unit :=
  let missing := required.filter (fun k => !hasKey config k)
  if missing.isEmpty then Except.ok ()
  else Except.error (requireKeysMessage missing)

/-- Shallow embedding of `RestAuthProvider.parse_config`
(lines 107-170).  After `_require_keys` has passed, the subscripts
`config["endpoint"]` and `config["api_token"]` cannot raise, so the
final `KeyError` arm is unreachable; it is kept so that the function
models the uncaught exception rather than inventing a value. -/
def parse_config (config : List (String × PyVal)) : Except String RestConfig :=
  match require_keys config ["endpoint", "api_token"] with
  | Except.error e => Except.error e
  | Except.ok _ =>
      match dlookup config "endpoint", dlookup config "api_token" with
      | some ep, some tok =>
          Except.ok
            ⟨ep, tok,
             (policyLookup config
                 ["registration", "username", "enforceLowercase"]).getD
               (PyVal.bool true),
             (policyLookup config ["registration", "profile", "name"]).getD
               (PyVal.bool true),
             (policyLookup config ["login", "profile", "name"]).getD
               (PyVal.bool false),
             (policyLookup config ["all", "threepid", "update"]).getD
               (PyVal.bool true),
             (policyLookup config ["all", "threepid", "replace"]).getD
               (PyVal.bool false)⟩
      | _, _ => Except.error "KeyError"

/-- Shallow embedding of `RestAuthProvider.__init__` (lines 32-45): raise
`RuntimeError('Missing endpoint config')` when `config.endpoint` is
falsy, otherwise build the provider state used by `check_password`
(the startup `logger.info` lines are not modelled; no claim concerns
them). -/
def initProvider (config : RestConfig) : Except String Provider :=
  if config.endpoint.truthy then
    Except.ok ⟨config.endpoint, config.api_token, config.regLower⟩
  else Except.error "Missing endpoint config"

lemma hasKey_eq_isSome (config : List (String × PyVal)) (k : String) :
    hasKey config k = (dlookup config k).isSome := by
  induction config with
  | nil => rfl
  | cons kv rest ih =>
    obtain ⟨k', v⟩ := kv
    by_cases h : k' = k <;> simp [hasKey, dlookup, h, ih]

/-- C7: a config dict lacking `endpoint` (or `api_token`) makes
`parse_config` raise with a message naming the missing key; `__init__`
raises on a falsy (e.g. empty) endpoint; and any provider actually
constructed from a parsed config has a truthy endpoint coming from a
config that did contain the `endpoint` key. -/
theorem c7_missing_config_fails_fast :
    (∀ config : List (String × PyVal), hasKey config "endpoint" = false →
        ∃ missing, parse_config config =
            Except.error (requireKeysMessage missing) ∧
          "endpoint" ∈ missing) ∧
    (∀ config : List (String × PyVal), hasKey config "api_token" = false →
        ∃ missing, parse_config config =
            Except.error (requireKeysMessage missing) ∧
          "api_token" ∈ missing) ∧
    (∀ rc : RestConfig, PyVal.truthy rc.endpoint = false →
        initProvider rc = Except.error "Missing endpoint config") ∧
    (∀ (config : List (String × PyVal)) (rc : RestConfig) (prov : Provider),
        parse_config config = Except.ok rc →
        initProvider rc = Except.ok prov →
        PyVal.truthy prov.endpoint = true ∧
        hasKey config "endpoint" = true) := by
  have p1 : ∀ config : List (String × PyVal),
      hasKey config "endpoint" = false →
      ∃ missing, parse_config config =
          Except.error (requireKeysMessage missing) ∧
        "endpoint" ∈ missing := by
    intro config h
    cases ht : hasKey config "api_token"
    · exact ⟨["endpoint", "api_token"],
        by simp [parse_config, require_keys, h, ht], by simp⟩
    · exact ⟨["endpoint"],
        by simp [parse_config, require_keys, h, ht], by simp⟩
  have p3 : ∀ rc : RestConfig, PyVal.truthy rc.endpoint = false →
      initProvider rc = Except.error "Missing endpoint config" := by
    intro rc h
    simp [initProvider, h]
  refine ⟨p1, ?_, p3, ?_⟩
  · intro config h
    cases he : hasKey config "endpoint"
    · exact ⟨["endpoint", "api_token"],
        by simp [parse_config, require_keys, h, he], by simp⟩
    · exact ⟨["api_token"],
        by simp [parse_config, require_keys, h, he], by simp⟩
  · intro config rc prov hp hi
    have hkey : hasKey config "endpoint" = true := by
      cases hk : hasKey config "endpoint"
      · obtain ⟨missing, hperr, _⟩ := p1 config hk
        rw [hperr] at hp
        exact Except.noConfusion hp
      · rfl
    have htr : PyVal.truthy rc.endpoint = true := by
      cases hb : PyVal.truthy rc.endpoint
      · rw [p3 rc hb] at hi
        exact Except.noConfusion hi
      · rfl
    refine ⟨?_, hkey⟩
    unfold initProvider at hi
    rw [htr] at hi
    simp at hi
    rw [← hi]
    exact htr

/-- Witness for C7: a config without `endpoint` is rejected with a
message naming it, and an empty endpoint value is rejected by
`__init__`. -/
theorem c7_missing_config_fails_fast_witness :
    (∃ missing, parse_config [("api_token", PyVal.str "t")] =
        Except.error (requireKeysMessage missing) ∧ "endpoint" ∈ missing) ∧
    initProvider ⟨PyVal.str "", PyVal.str "t", PyVal.bool true,
        PyVal.bool true, PyVal.bool false, PyVal.bool true,
        PyVal.bool false⟩ =
      Except.error "Missing endpoint config" :=
  ⟨c7_missing_config_fails_fast.1 [("api_token", PyVal.str "t")] rfl,
   c7_missing_config_fails_fast.2.2.1
     ⟨PyVal.str "", PyVal.str "t", PyVal.bool true, PyVal.bool true,
      PyVal.bool false, PyVal.bool true, PyVal.bool false⟩ rfl⟩

/-- C8: on any config dict containing `endpoint` and `api_token`,
`parse_config` succeeds, carries those two values through, and every
nested policy flag whose chained lookup raises (absent key or
structurally wrong type, both swallowed) falls back to its documented
default: `enforceLowercase` true, registration profile name true, login
profile name false, threepid update true, threepid replace false. -/
theorem c8_parse_config_silent_defaults (config : List (String × PyVal))
    (ep tok : PyVal)
    (hep : dlookup config "endpoint" = some ep)
    (htok : dlookup config "api_token" = some tok) :
    ∃ rc, parse_config config = Except.ok rc ∧
      rc.endpoint = ep ∧ rc.api_token = tok ∧
      (policyLookup config ["registration", "username", "enforceLowercase"] =
          Option.none → rc.regLower = PyVal.bool true) ∧
      (policyLookup config ["registration", "profile", "name"] =
          Option.none → rc.setNameOnRegister = PyVal.bool true) ∧
      (policyLookup config ["login", "profile", "name"] =
          Option.none → rc.setNameOnLogin = PyVal.bool false) ∧
      (policyLookup config ["all", "threepid", "update"] =
          Option.none → rc.updateThreepid = PyVal.bool true) ∧
      (policyLookup config ["all", "threepid", "replace"] =
          Option.none → rc.replaceThreepid = PyVal.bool false) := by
  have hk1 : hasKey config "endpoint" = true := by
    rw [hasKey_eq_isSome, hep]
    rfl
  have hk2 : hasKey config "api_token" = true := by
    rw [hasKey_eq_isSome, htok]
    rfl
  refine ⟨⟨ep, tok,
      (policyLookup config
          ["registration", "username", "enforceLowercase"]).getD
        (PyVal.bool true),
      (policyLookup config ["registration", "profile", "name"]).getD
        (PyVal.bool true),
      (policyLookup config ["login", "profile", "name"]).getD
        (PyVal.bool false),
      (policyLookup config ["all", "threepid", "update"]).getD
        (PyVal.bool true),
      (policyLookup config ["all", "threepid", "replace"]).getD
        (PyVal.bool false)⟩, ?_, rfl, rfl, ?_, ?_, ?_, ?_, ?_⟩
  · simp [parse_config, require_keys, hk1, hk2, hep, htok]
  all_goals intro h
  all_goals rw [h]
  all_goals rfl

/-- Witness for C8: the minimal valid config, in which every policy
lookup falls back, yields exactly the documented defaults. -/
theorem c8_parse_config_silent_defaults_witness :
    ∃ rc, parse_config
        [("endpoint", PyVal.str "http://e"), ("api_token", PyVal.str "t")] =
        Except.ok rc ∧
      rc.endpoint = PyVal.str "http://e" ∧ rc.api_token = PyVal.str "t" ∧
      (policyLookup
          [("endpoint", PyVal.str "http://e"), ("api_token", PyVal.str "t")]
          ["registration", "username", "enforceLowercase"] =
          Option.none → rc.regLower = PyVal.bool true) ∧
      (policyLookup
          [("endpoint", PyVal.str "http://e"), ("api_token", PyVal.str "t")]
          ["registration", "profile", "name"] =
          Option.none → rc.setNameOnRegister = PyVal.bool true) ∧
      (policyLookup
          [("endpoint", PyVal.str "http://e"), ("api_token", PyVal.str "t")]
          ["login", "profile", "name"] =
          Option.none → rc.setNameOnLogin = PyVal.bool false) ∧
      (policyLookup
          [("endpoint", PyVal.str "http://e"), ("api_token", PyVal.str "t")]
          ["all", "threepid", "update"] =
          Option.none → rc.updateThreepid = PyVal.bool true) ∧
      (policyLookup
          [("endpoint", PyVal.str "http://e"), ("api_token", PyVal.str "t")]
          ["all", "threepid", "replace"] =
          Option.none → rc.replaceThreepid = PyVal.bool false) :=
  c8_parse_config_silent_defaults
    [("endpoint", PyVal.str "http://e"), ("api_token", PyVal.str "t")]
    (PyVal.str "http://e") (PyVal.str "t") rfl rfl
